import Mathlib

/-!
Shallow embedding of the age-eligibility validators and the scheduling
conflict detector of the `sur_voley` club-management application
(`app/form.py`, `app/forms.py`, `app/models.py`, `app/views.py`),
together with theorems settling the specification claims about them.

Python `datetime.date` and `datetime.time` values are modelled as records
of integers compared lexicographically, exactly as CPython compares them.
Database rows are modelled as Lean structures and querysets as lists.
-/

namespace SurVoley

/-- A calendar date, as carried by Python `datetime.date`:
a `(year, month, day)` triple compared lexicographically. -/
structure Fecha where
  year : Int
  month : Nat
  day : Nat
deriving DecidableEq, Repr

/-- Python `date` strict comparison: lexicographic on (year, month, day). -/
def Fecha.lt (a b : Fecha) : Bool :=
  a.year < b.year ||
    (a.year == b.year &&
      (a.month < b.month || (a.month == b.month && a.day < b.day)))

/-- Python `date` non-strict comparison. -/
def Fecha.le (a b : Fecha) : Bool :=
  Fecha.lt a b || a == b

/-- A time of day, as carried by Python `datetime.time`:
an (hour, minute) pair compared lexicographically. -/
structure Hora where
  hour : Nat
  minute : Nat
deriving DecidableEq, Repr

/-- Python `time` strict comparison: lexicographic on (hour, minute). -/
def Hora.lt (a b : Hora) : Bool :=
  a.hour < b.hour || (a.hour == b.hour && a.minute < b.minute)

/-- The Python tuple comparison `(m1, d1) < (m2, d2)` used by both age
computations to decide whether the birthday has not yet occurred. -/
def mdLt (m1 d1 m2 d2 : Nat) : Bool :=
  m1 < m2 || (m1 == m2 && d1 < d2)

/-! ## Policy A: `app/form.py`, `_EdadCategoriaMixin` -/

/-- `_EdadCategoriaMixin.fecha_corte`: December 31 of the year before
`anio` (the current year at the call site). -/
def fecha_corte (anio : Int) : Fecha :=
  { year := anio - 1, month := 12, day := 31 }

/-- `_EdadCategoriaMixin.edad_al_corte`: age at the cutoff date.
Python subtracts the boolean `(corte.month, corte.day) <
(fn.month, fn.day)` from the year difference. -/
def edad_al_corte (fecha_nacimiento corte : Fecha) : Int :=
  corte.year - fecha_nacimiento.year -
    (if mdLt corte.month corte.day fecha_nacimiento.month fecha_nacimiento.day
     then 1 else 0)

/-- `_EdadCategoriaMixin.REGLAS_CATEGORIA`: the dict lookup
`REGLAS_CATEGORIA.get(codigo)` giving the inclusive (min, max) age range. -/
def REGLAS_CATEGORIA (codigo : String) : Option (Int × Int) :=
  if codigo = "sub_14" then some (12, 14)
  else if codigo = "sub_16" then some (14, 16)
  else if codigo = "sub_18" then some (16, 18)
  else none

/-- `_EdadCategoriaMixin.CATEGORIAS_LABELS`: the dict lookup
`CATEGORIAS_LABELS.get(codigo, codigo)` giving the display label. -/
def CATEGORIAS_LABELS (codigo : String) : String :=
  if codigo = "sub_14" then "Sub 14"
  else if codigo = "sub_16" then "Sub 16"
  else if codigo = "sub_18" then "Sub 18"
  else codigo

/-- The category row referenced by a team in the `form.py` variant:
only its `nombre` matters to the mixin. -/
structure CategoriaA where
  nombre : String
deriving DecidableEq, Repr

/-- A team as seen by the `form.py` mixin: `equipo.categoria` may be
missing (Python checks `hasattr` and truthiness). -/
structure EquipoA where
  categoria : Option CategoriaA
deriving DecidableEq, Repr

/-- Python `str.lower()` on the ASCII category codes/slugs in scope:
lowercase every character. -/
def strLower (s : String) : String :=
  String.mk (s.data.map Char.toLower)

/-- Zero-padded two-digit rendering, as Python `strftime` pads `%d`/`%m`. -/
def pad2 (n : Nat) : String :=
  if n < 10 then "0" ++ toString n else toString n

/-- Python `corte.strftime(\x7b'%d-%m-%Y'\x7d)` for the four-digit years in
scope: day-month-year with two-digit day and month. -/
def Fecha.ddmmyyyy (d : Fecha) : String :=
  pad2 d.day ++ "-" ++ pad2 d.month ++ "-" ++ toString d.year

/-- The f-string attached to the `equipo` field when the age falls
outside the category range (`_validar_edad_vs_categoria`). -/
def mensaje_fuera_rango (corte : Fecha) (edad : Int) (etiqueta : String)
    (min_e max_e : Int) : String :=
  "La edad al " ++ corte.ddmmyyyy ++ " es " ++ toString edad ++
    " años, fuera del rango permitido para " ++ etiqueta ++
    " (" ++ toString min_e ++ "–" ++ toString max_e ++ ")."

/-- `_EdadCategoriaMixin._codigo_categoria_equipo`: the lowercased
category name, or `none` when the team, its category, or the name is
missing/empty (`str(...).lower() or None`). -/
def codigo_categoria_equipo (equipo : Option EquipoA) : Option String :=
  match equipo with
  | none => none
  | some e =>
    match e.categoria with
    | none => none
    | some c =>
      let s := strLower c.nombre
      if s = "" then none else some s

/-- `_EdadCategoriaMixin._validar_edad_vs_categoria`, run in the year
`anio`: returns the error message added to the `equipo` field, or `none`
when no error is added (both the skip paths and the success path). -/
def validar_edad_vs_categoria (anio : Int) (fecha_nacimiento : Option Fecha)
    (equipo : Option EquipoA) : Option String :=
  match fecha_nacimiento, equipo with
  | some fn, some e =>
    match codigo_categoria_equipo (some e) with
    | none => some "No se pudo determinar la categoría del equipo."
    | some codigo =>
      match REGLAS_CATEGORIA codigo with
      | none => some "La categoría del equipo es inválida o no está configurada."
      | some (min_e, max_e) =>
        let edad := edad_al_corte fn (fecha_corte anio)
        if min_e ≤ edad ∧ edad ≤ max_e then none
        else
          some (mensaje_fuera_rango (fecha_corte anio) edad
            (CATEGORIAS_LABELS codigo) min_e max_e)
  | _, _ => none

/-! ## Policy B: `app/forms.py`, `UsuarioCrearForm` -/

/-- `UsuarioCrearForm.calcular_edad`: age as of `hoy`, one less when
today's (month, day) precedes the birth date's. -/
def calcular_edad (hoy fecha_nacimiento : Fecha) : Int :=
  let edad := hoy.year - fecha_nacimiento.year
  if mdLt hoy.month hoy.day fecha_nacimiento.month fecha_nacimiento.day
  then edad - 1 else edad

/-- The category row in the `forms.py`/`models.py` variant: a slug. -/
structure CategoriaB where
  slug : String
deriving DecidableEq, Repr

/-- A team as seen by `forms.py`: `categoria` is a non-null foreign key. -/
structure EquipoB where
  categoria : CategoriaB
deriving DecidableEq, Repr

/-- Whether `needle` occurs as a contiguous sublist of a character list. -/
def listInfixOf (needle : List Char) : List Char → Bool
  | [] => needle.isEmpty
  | a :: as => needle.isPrefixOf (a :: as) || listInfixOf needle as

/-- Python `needle in haystack` on strings. -/
def strContains (haystack needle : String) : Bool :=
  listInfixOf needle.toList haystack.toList

/-- The if/elif chain of `validar_edad_categoria` mapping a lowercased
slug to (maximum age, display name); `none` when no branch matches. -/
def bracketDeSlug (categoria_slug : String) : Option (Int × String) :=
  if strContains categoria_slug "sub-14" || strContains categoria_slug "sub14"
  then some (14, "Sub-14")
  else if strContains categoria_slug "sub-16" || strContains categoria_slug "sub16"
  then some (16, "Sub-16")
  else if strContains categoria_slug "sub-18" || strContains categoria_slug "sub18"
  then some (18, "Sub-18")
  else none

/-- The `ValidationError` text raised by `validar_edad_categoria`. -/
def mensajeB (edad edad_maxima : Int) (nombre_categoria : String) : String :=
  "El jugador tiene " ++ toString edad ++
    " años. No puede estar en la categoría " ++ nombre_categoria ++
    " (edad máxima: " ++ toString edad_maxima ++ " años). " ++
    "Por favor, selecciona un equipo de categoría superior o verifica la fecha de nacimiento."

/-- Lean image of the three exits of `validar_edad_categoria`:
`return None` (skip), `raise ValidationError(msg)`, `return edad`. -/
inductive ResultadoB where
  | skip : ResultadoB
  | rechazo (msg : String) : ResultadoB
  | acepta (edad : Int) : ResultadoB
deriving DecidableEq, Repr

/-- `UsuarioCrearForm.validar_edad_categoria`, evaluated with `hoy` as
the current date. -/
def validar_edad_categoria (hoy : Fecha) (fecha_nacimiento : Option Fecha)
    (equipo : Option EquipoB) : ResultadoB :=
  match fecha_nacimiento, equipo with
  | some fn, some e =>
    let edad := calcular_edad hoy fn
    let categoria_slug := strLower e.categoria.slug
    match bracketDeSlug categoria_slug with
    | none => .skip
    | some (edad_maxima, nombre_categoria) =>
      if edad > edad_maxima
      then .rechazo (mensajeB edad edad_maxima nombre_categoria)
      else .acepta edad
  | _, _ => .skip

/-! ## Scheduling: `app/models.py`, `ActividadDeportiva` -/

/-- A row of `ActividadDeportiva`, with its many-to-many `equipos`
flattened to the list of participating team ids. `hora_inicio` and
`hora_fin` are nullable; the date fields are not. -/
structure Actividad where
  pk : Nat
  tipo : String
  fecha_inicio : Fecha
  fecha_fin : Fecha
  hora_inicio : Option Hora
  hora_fin : Option Hora
  equipos : List Nat
  entrenador_responsable : Option Nat
deriving DecidableEq, Repr

/-- A row of `Equipo`: id, display name, category slug and the id of the
`Perfil` who directs the team (`entrenador`, non-null). -/
structure EquipoRec where
  id : Nat
  nombre : String
  categoria_slug : String
  entrenador_id : Nat
deriving DecidableEq, Repr

/-- A row of `Perfil` joined with its `User`: `tipo` is the role code
("ENTRE" for coaches) and `activo` is `user.is_active`. -/
structure PerfilRec where
  id : Nat
  tipo : String
  activo : Bool
deriving DecidableEq, Repr

/-- SQL comparison `hora_inicio__lt=h` on a nullable column: false on NULL. -/
def horaOptLt (x : Option Hora) (h : Hora) : Bool :=
  match x with
  | some t => Hora.lt t h
  | none => false

/-- SQL comparison `hora_fin__gt=h` on a nullable column: false on NULL. -/
def horaOptGt (x : Option Hora) (h : Hora) : Bool :=
  match x with
  | some t => Hora.lt h t
  | none => false

/-- The Python set intersection
`set(equipos_ids) & set(actividad.equipos.values_list(\x7b'id'\x7d))`,
as the sublist of `equipos_ids` members that also belong to the activity. -/
def equiposComunes (equipos_ids otros : List Nat) : List Nat :=
  equipos_ids.filter (fun t => otros.contains t)

/-- One entry of the conflict list built by
`verificar_solapamiento_equipos`: the clashing activity, the shared team
ids, and the literal tag `"equipo"`. -/
structure ConflictoEquipo where
  actividad : Actividad
  equipos_comunes : List Nat
  tipo : String
deriving DecidableEq, Repr

/-- The body of the `for` loop of `verificar_solapamiento_equipos`:
for one already-filtered activity `a`, require both its times defined,
re-check the date-range intersection, require the identical start date,
and apply the strict time-overlap test, producing the conflict entry. -/
def conflicto_de_actividad (self : Actividad) (hi hf : Hora)
    (equipos_ids : List Nat) (a : Actividad) : Option ConflictoEquipo :=
  match a.hora_inicio, a.hora_fin with
  | some ahi, some ahf =>
    if Fecha.le self.fecha_inicio a.fecha_fin &&
       Fecha.le a.fecha_inicio self.fecha_fin then
      if self.fecha_inicio == a.fecha_inicio then
        if Hora.lt hi ahf && Hora.lt ahi hf then
          some { actividad := a,
                 equipos_comunes := equiposComunes equipos_ids a.equipos,
                 tipo := "equipo" }
        else none
      else none
    else none
  | _, _ => none

/-- `ActividadDeportiva.verificar_solapamiento_equipos(equipos_ids)` run
with `self` as the candidate over the stored activity list `db`.
Returns `none` (Python `None`) when the candidate lacks a time or the
conflict list is empty, otherwise the list of conflicts.
The queryset filter keeps activities sharing a team with `equipos_ids`,
whose date range intersects the candidate's, excluding `self.pk`. -/
def verificar_solapamiento_equipos (db : List Actividad) (self : Actividad)
    (equipos_ids : List Nat) : Option (List ConflictoEquipo) :=
  match self.hora_inicio, self.hora_fin with
  | some hi, some hf =>
    let actividades_solapadas := db.filter (fun a =>
      a.equipos.any (fun t => equipos_ids.contains t) &&
      Fecha.le a.fecha_inicio self.fecha_fin &&
      Fecha.le self.fecha_inicio a.fecha_fin &&
      a.pk != self.pk)
    let conflictos := actividades_solapadas.filterMap
      (conflicto_de_actividad self hi hf equipos_ids)
    if conflictos.isEmpty then none else some conflictos
  | _, _ => none

/-- One entry of the conflict list built by
`verificar_disponibilidad_entrenador`: the clashing activity and the
literal tag `"entrenador"`. -/
structure ConflictoEntrenador where
  actividad : Actividad
  tipo : String
deriving DecidableEq, Repr

/-- The body of the `for` loop of `verificar_disponibilidad_entrenador`:
require the activity's times defined, the identical start date, and the
strict time-overlap test. -/
def conflicto_de_entrenador (self : Actividad) (hi hf : Hora)
    (a : Actividad) : Option ConflictoEntrenador :=
  match a.hora_inicio, a.hora_fin with
  | some ahi, some ahf =>
    if self.fecha_inicio == a.fecha_inicio then
      if Hora.lt hi ahf && Hora.lt ahi hf then
        some { actividad := a, tipo := "entrenador" }
      else none
    else none
  | _, _ => none

/-- `ActividadDeportiva.verificar_disponibilidad_entrenador(entrenador_id)`
run with `self` as the candidate.  The two querysets — activities where
the coach is `entrenador_responsable`, and activities of teams the coach
directs — are OR-combined with `.distinct()`; over a single table that
union is the filter by the disjunction of the two conditions. -/
def verificar_disponibilidad_entrenador (db : List Actividad)
    (equipos : List EquipoRec) (self : Actividad)
    (entrenador_id : Option Nat) : Option (List ConflictoEntrenador) :=
  match self.hora_inicio, self.hora_fin, entrenador_id with
  | some hi, some hf, some eid =>
    let equipos_entrenador :=
      (equipos.filter (fun e => e.entrenador_id == eid)).map (fun e => e.id)
    let todas_actividades := db.filter (fun a =>
      (a.entrenador_responsable == some eid ||
       a.equipos.any (fun t => equipos_entrenador.contains t)) &&
      Fecha.le a.fecha_inicio self.fecha_fin &&
      Fecha.le self.fecha_inicio a.fecha_fin &&
      a.pk != self.pk)
    let conflictos := todas_actividades.filterMap
      (conflicto_de_entrenador self hi hf)
    if conflictos.isEmpty then none else some conflictos
  | _, _, _ => none

/-- `ActividadDeportiva.obtener_entrenadores_disponibles`, returning the
ids of available coaches.  `fecha_inicio` is a non-nullable column, so of
the Python guard only the two time checks can fire.  The busy set unions
the responsible-coach query with the directed-teams query; the latter's
`.exclude(actividades__pk=self.pk)` drops every team that participates
in an activity with the candidate's pk. -/
def obtener_entrenadores_disponibles (db : List Actividad)
    (equipos : List EquipoRec) (perfiles : List PerfilRec)
    (self : Actividad) : List Nat :=
  match self.hora_inicio, self.hora_fin with
  | some hi, some hf =>
    let todos_entrenadores :=
      (perfiles.filter (fun p => p.tipo == "ENTRE" && p.activo)).map
        (fun p => p.id)
    let actividades_conflicto := (db.filter (fun a =>
      a.fecha_inicio == self.fecha_inicio &&
      horaOptLt a.hora_inicio hf &&
      horaOptGt a.hora_fin hi &&
      a.entrenador_responsable.isSome &&
      a.pk != self.pk)).filterMap (fun a => a.entrenador_responsable)
    let equipos_con_actividades := (equipos.filter (fun e =>
      (db.any (fun a =>
        a.equipos.contains e.id &&
        a.fecha_inicio == self.fecha_inicio &&
        horaOptLt a.hora_inicio hf &&
        horaOptGt a.hora_fin hi)) &&
      !(db.any (fun a => a.equipos.contains e.id && a.pk == self.pk)))).map
        (fun e => e.entrenador_id)
    let entrenadores_ocupados := actividades_conflicto ++ equipos_con_actividades
    todos_entrenadores.filter (fun c => !(entrenadores_ocupados.contains c))
  | _, _ =>
    (perfiles.filter (fun p => p.tipo == "ENTRE" && p.activo)).map
      (fun p => p.id)

/-! ## Same-day-same-kind rule: `app/views.py`,
`actividades_crear` / `actividades_editar` -/

/-- The queryset `actividades_en_conflicto` shared by the create and
edit flows: existing activities with a team among `equipos_ids`, the
same `tipo`, and exactly the candidate's `fecha_inicio`.  The edit flow
additionally excludes the activity being edited (`excluir = some pk`);
the create flow passes `none`. -/
def actividades_en_conflicto (db : List Actividad) (equipos_ids : List Nat)
    (tipo : String) (fecha_inicio_obj : Fecha) (excluir : Option Nat) :
    List Actividad :=
  db.filter (fun a =>
    a.equipos.any (fun t => equipos_ids.contains t) &&
    a.tipo == tipo &&
    a.fecha_inicio == fecha_inicio_obj &&
    (match excluir with
     | some pk => a.pk != pk
     | none => true))

/-- `nombres_equipos_en_conflicto`: names of the teams that are both
selected for the candidate and participate in some conflicting activity. -/
def nombres_equipos_en_conflicto (equipos : List EquipoRec)
    (conflicto : List Actividad) (equipos_ids : List Nat) : List String :=
  (equipos.filter (fun e =>
    conflicto.any (fun a => a.equipos.contains e.id) &&
    equipos_ids.contains e.id)).map (fun e => e.nombre)

/-- The data interpolated into the rejection message of the create/edit
flows: the activity kind display, the formatted date, and the
comma-joined conflicting team names. -/
structure MensajeConflicto where
  tipo_display : String
  fecha : String
  equipos_en_conflicto : List String
deriving DecidableEq, Repr

/-- The same-day-same-kind gate of `actividades_crear` /
`actividades_editar`: `none` means the save proceeds; `some m` means the
save is rejected with the error message built from `m`. -/
def validacion_mismo_dia_mismo_tipo (db : List Actividad)
    (equipos : List EquipoRec) (equipos_ids : List Nat) (tipo : String)
    (fecha_inicio_obj : Fecha) (excluir : Option Nat) :
    Option MensajeConflicto :=
  if (actividades_en_conflicto db equipos_ids tipo fecha_inicio_obj
      excluir).isEmpty then none
  else some
    { tipo_display := tipo,
      fecha := fecha_inicio_obj.ddmmyyyy,
      equipos_en_conflicto := nombres_equipos_en_conflicto equipos
        (actividades_en_conflicto db equipos_ids tipo fecha_inicio_obj
          excluir) equipos_ids }

/-! ## Attendance: `app/models.py` `Asistencia`, `app/views.py`
`asistencias_registrar` -/

/-- A row of `Jugador` as the attendance logic sees it: id and the
(nullable) id of the team the player belongs to. -/
structure JugadorRec where
  id : Nat
  equipo_id : Option Nat
deriving DecidableEq, Repr

/-- A row of `Asistencia`; `fecha_hora_marcaje` is kept as its date
component, which is all `clean` inspects. -/
structure AsistenciaRec where
  jugador : Nat
  actividad : Nat
  entrenador : Nat
  estado : String
  fecha_marcaje : Fecha
deriving DecidableEq, Repr

/-- `Asistencia.clean` (the second, surviving definition): the player's
team must participate in the activity, and the marking date must lie in
the activity's date range. -/
def Asistencia_clean (actividad : Actividad) (jugador : JugadorRec)
    (fecha_marcaje : Fecha) : Except String Unit :=
  let equipos_participantes := actividad.equipos
  if !(match jugador.equipo_id with
       | some t => equipos_participantes.contains t
       | none => false) then
    Except.error "El jugador no pertenece a un equipo que participa en esta actividad."
  else if !(Fecha.le actividad.fecha_inicio fecha_marcaje &&
            Fecha.le fecha_marcaje actividad.fecha_fin) then
    Except.error "La marcación debe estar dentro del rango de la actividad."
  else Except.ok ()

/-- `Asistencia.objects.update_or_create(jugador=, actividad=, defaults=...)`:
update the matching row if one exists, else append a new row.  Returns
the new table and the `created` flag.  No model validation is run. -/
def update_or_create_asistencia (asistencias : List AsistenciaRec)
    (jugador actividad entrenador : Nat) (estado : String)
    (fecha_marcaje : Fecha) : List AsistenciaRec × Bool :=
  if asistencias.any (fun r => r.jugador == jugador && r.actividad == actividad)
  then
    (asistencias.map (fun r =>
      if r.jugador == jugador && r.actividad == actividad then
        { r with entrenador := entrenador, estado := estado,
                 fecha_marcaje := fecha_marcaje }
      else r), false)
  else
    (asistencias ++ [{ jugador := jugador, actividad := actividad,
                       entrenador := entrenador, estado := estado,
                       fecha_marcaje := fecha_marcaje }], true)

/-- The POST branch of `asistencias_registrar`: after checking that the
marking date falls inside the activity's range, every id in `presentes`
is recorded as "P" and every id in `ausentes` as "A", each through
`update_or_create`.  The view never checks that a player's team
participates in the activity. -/
def asistencias_registrar (asistencias : List AsistenciaRec)
    (actividad : Actividad) (entrenador : Nat) (fecha_marcaje : Fecha)
    (presentes ausentes : List Nat) : List AsistenciaRec :=
  if Fecha.le actividad.fecha_inicio fecha_marcaje &&
     Fecha.le fecha_marcaje actividad.fecha_fin then
    let paso1 := presentes.foldl (fun acc j =>
      (update_or_create_asistencia acc j actividad.pk entrenador "P"
        fecha_marcaje).1) asistencias
    ausentes.foldl (fun acc j =>
      (update_or_create_asistencia acc j actividad.pk entrenador "A"
        fecha_marcaje).1) paso1
  else asistencias

/-! ## Helper lemmas -/

lemma reglas_casos {codigo : String} {min_e max_e : Int}
    (h : REGLAS_CATEGORIA codigo = some (min_e, max_e)) :
    (codigo = "sub_14" ∧ min_e = 12 ∧ max_e = 14) ∨
    (codigo = "sub_16" ∧ min_e = 14 ∧ max_e = 16) ∨
    (codigo = "sub_18" ∧ min_e = 16 ∧ max_e = 18) := by
  unfold REGLAS_CATEGORIA at h
  split_ifs at h with h1 h2 h3 <;>
    simp_all

lemma validarA_con_reglas (anio : Int) (fn : Fecha) (codigo : String)
    (min_e max_e : Int) (hlower : strLower codigo = codigo) (hne : codigo ≠ "")
    (h : REGLAS_CATEGORIA codigo = some (min_e, max_e)) :
    validar_edad_vs_categoria anio (some fn)
        (some { categoria := some { nombre := codigo } }) =
      (if min_e ≤ edad_al_corte fn (fecha_corte anio) ∧
          edad_al_corte fn (fecha_corte anio) ≤ max_e
       then none
       else some (mensaje_fuera_rango (fecha_corte anio)
         (edad_al_corte fn (fecha_corte anio)) (CATEGORIAS_LABELS codigo)
         min_e max_e)) := by
  unfold validar_edad_vs_categoria codigo_categoria_equipo
  simp [hlower, hne, h]

/-! ## Claim theorems -/

/-- Claim C1: under Policy A, for every birth date and every category
code carrying a rule (exactly "sub_14", "sub_16", "sub_18"), the cutoff
is December 31 of (current year − 1), the age is the year difference
adjusted by the (month, day) comparison, validation succeeds exactly
when the age lies in the inclusive range, bracket boundaries are
accepted and one step outside is rejected, and the rejection message
interpolates the computed age, the formatted cutoff date, and the
allowed range. -/
theorem claim_C1_politicaA_rango_inclusivo (anio : Int) (fn : Fecha)
    (codigo : String) (min_e max_e : Int)
    (h : REGLAS_CATEGORIA codigo = some (min_e, max_e)) :
    fecha_corte anio = { year := anio - 1, month := 12, day := 31 } ∧
    edad_al_corte fn (fecha_corte anio) =
      (fecha_corte anio).year - fn.year -
        (if mdLt (fecha_corte anio).month (fecha_corte anio).day
            fn.month fn.day then 1 else 0) ∧
    (validar_edad_vs_categoria anio (some fn)
        (some { categoria := some { nombre := codigo } }) = none ↔
      (min_e ≤ edad_al_corte fn (fecha_corte anio) ∧
       edad_al_corte fn (fecha_corte anio) ≤ max_e)) ∧
    ((edad_al_corte fn (fecha_corte anio) = min_e ∨
      edad_al_corte fn (fecha_corte anio) = max_e) →
      validar_edad_vs_categoria anio (some fn)
        (some { categoria := some { nombre := codigo } }) = none) ∧
    ((edad_al_corte fn (fecha_corte anio) = min_e - 1 ∨
      edad_al_corte fn (fecha_corte anio) = max_e + 1) →
      validar_edad_vs_categoria anio (some fn)
        (some { categoria := some { nombre := codigo } }) =
        some (mensaje_fuera_rango (fecha_corte anio)
          (edad_al_corte fn (fecha_corte anio)) (CATEGORIAS_LABELS codigo)
          min_e max_e)) ∧
    (∃ s1 s2 s3 s4,
      mensaje_fuera_rango (fecha_corte anio)
          (edad_al_corte fn (fecha_corte anio)) (CATEGORIAS_LABELS codigo)
          min_e max_e =
        s1 ++ (fecha_corte anio).ddmmyyyy ++ s2 ++
          toString (edad_al_corte fn (fecha_corte anio)) ++ s3 ++
          (toString min_e ++ "–" ++ toString max_e) ++ s4) := by
  have hcase := reglas_casos h
  have hlower : strLower codigo = codigo := by
    rcases hcase with ⟨hc, _, _⟩ | ⟨hc, _, _⟩ | ⟨hc, _, _⟩ <;> subst hc <;> decide
  have hne : codigo ≠ "" := by
    rcases hcase with ⟨hc, _, _⟩ | ⟨hc, _, _⟩ | ⟨hc, _, _⟩ <;> subst hc <;> decide
  have hminmax : min_e ≤ max_e := by
    rcases hcase with ⟨_, h1, h2⟩ | ⟨_, h1, h2⟩ | ⟨_, h1, h2⟩ <;>
      subst h1 <;> subst h2 <;> decide
  have hval := validarA_con_reglas anio fn codigo min_e max_e hlower hne h
  set edad := edad_al_corte fn (fecha_corte anio) with hedad
  refine ⟨rfl, ?_, ?_, ?_, ?_, ?_⟩
  · rfl
  · rw [hval]
    by_cases hin : min_e ≤ edad ∧ edad ≤ max_e
    · simp [hin]
    · simp [hin]
  · intro hb
    rw [hval]
    rcases hb with hb | hb <;> rw [hb] <;> simp [hminmax]
  · intro hb
    rw [hval]
    rcases hb with hb | hb <;> rw [hb] <;> simp
  · refine ⟨"La edad al ", " es ",
      " años, fuera del rango permitido para " ++ CATEGORIAS_LABELS codigo ++ " (",
      ").", ?_⟩
    simp [mensaje_fuera_rango, String.append_assoc]

/-- Witness for C1 at the spec scenario: birth 2011-06-15 evaluated in
2025 against "sub_14" gives age 13, inside 12–14, so validation passes;
and the same birth date against "sub_18" is rejected with the message
naming age 13, cutoff 31-12-2024, and range 16–18. -/
theorem claim_C1_witness :
    REGLAS_CATEGORIA "sub_14" = some (12, 14) ∧
    validar_edad_vs_categoria 2025 (some { year := 2011, month := 6, day := 15 })
      (some { categoria := some { nombre := "sub_14" } }) = none := by
  refine ⟨by decide, ?_⟩
  have h := claim_C1_politicaA_rango_inclusivo 2025
    { year := 2011, month := 6, day := 15 } "sub_14" 12 14 (by decide)
  exact h.2.2.1.mpr (by decide)

/-- Claim C2: under Policy B the age is computed as of the current date
with the (month, day) adjustment; a slug matched by the if/elif substring
chain yields only a maximum age, and validation raises exactly when the
age strictly exceeds it, otherwise the age is returned — so there is no
lower bound. -/
theorem claim_C2_politicaB_solo_maximo (hoy fn : Fecha) (e : EquipoB)
    (edad_maxima : Int) (nombre : String)
    (h : bracketDeSlug (strLower e.categoria.slug) = some (edad_maxima, nombre)) :
    calcular_edad hoy fn =
      (if mdLt hoy.month hoy.day fn.month fn.day
       then hoy.year - fn.year - 1 else hoy.year - fn.year) ∧
    (calcular_edad hoy fn > edad_maxima →
      validar_edad_categoria hoy (some fn) (some e) =
        .rechazo (mensajeB (calcular_edad hoy fn) edad_maxima nombre)) ∧
    (calcular_edad hoy fn ≤ edad_maxima →
      validar_edad_categoria hoy (some fn) (some e) =
        .acepta (calcular_edad hoy fn)) := by
  have hval : validar_edad_categoria hoy (some fn) (some e) =
      (if calcular_edad hoy fn > edad_maxima
       then .rechazo (mensajeB (calcular_edad hoy fn) edad_maxima nombre)
       else .acepta (calcular_edad hoy fn)) := by
    unfold validar_edad_categoria
    simp [h]
  refine ⟨rfl, ?_, ?_⟩
  · intro hgt
    rw [hval, if_pos hgt]
  · intro hle
    rw [hval, if_neg (not_lt.mpr hle)]

/-- Witness for C2 at the spec scenario: birth 2011-06-15 against slug
"sub-14", today 2025-06-20 → age 14, accepted; one year later → age 15,
rejected with the message naming 15 and the maximum 14. -/
theorem claim_C2_witness :
    bracketDeSlug (strLower "sub-14") = some (14, "Sub-14") ∧
    validar_edad_categoria { year := 2025, month := 6, day := 20 }
      (some { year := 2011, month := 6, day := 15 })
      (some { categoria := { slug := "sub-14" } }) = .acepta 14 ∧
    validar_edad_categoria { year := 2026, month := 6, day := 20 }
      (some { year := 2011, month := 6, day := 15 })
      (some { categoria := { slug := "sub-14" } }) =
        .rechazo (mensajeB 15 14 "Sub-14") := by
  refine ⟨by decide, ?_, ?_⟩
  · have h := claim_C2_politicaB_solo_maximo
      { year := 2025, month := 6, day := 20 }
      { year := 2011, month := 6, day := 15 }
      { categoria := { slug := "sub-14" } } 14 "Sub-14" (by decide)
    have h2 := h.2.2 (by decide)
    rw [show calcular_edad { year := 2025, month := 6, day := 20 }
      { year := 2011, month := 6, day := 15 } = 14 from by decide] at h2
    exact h2
  · have h := claim_C2_politicaB_solo_maximo
      { year := 2026, month := 6, day := 20 }
      { year := 2011, month := 6, day := 15 }
      { categoria := { slug := "sub-14" } } 14 "Sub-14" (by decide)
    have h2 := h.2.1 (by decide)
    rw [show calcular_edad { year := 2026, month := 6, day := 20 }
      { year := 2011, month := 6, day := 15 } = 15 from by decide] at h2
    exact h2

lemma mem_actividades_en_conflicto {db : List Actividad}
    {equipos_ids : List Nat} {tipo : String} {fecha : Fecha}
    {excluir : Option Nat} {a : Actividad} :
    a ∈ actividades_en_conflicto db equipos_ids tipo fecha excluir ↔
      a ∈ db ∧ (∃ t ∈ a.equipos, t ∈ equipos_ids) ∧ a.tipo = tipo ∧
        a.fecha_inicio = fecha ∧ (∀ pk, excluir = some pk → a.pk ≠ pk) := by
  unfold actividades_en_conflicto
  cases excluir with
  | none => simp [List.mem_filter, List.any_eq_true, and_assoc]
  | some pk => simp [List.mem_filter, List.any_eq_true, and_assoc]

lemma actividades_en_conflicto_ignora_horas (db : List Actividad)
    (equipos_ids : List Nat) (tipo : String) (fecha : Fecha)
    (excluir : Option Nat) (f g : Actividad → Option Hora) :
    actividades_en_conflicto
        (db.map (fun a => { a with hora_inicio := f a, hora_fin := g a }))
        equipos_ids tipo fecha excluir =
      (actividades_en_conflicto db equipos_ids tipo fecha excluir).map
        (fun a => { a with hora_inicio := f a, hora_fin := g a }) := by
  unfold actividades_en_conflicto
  rw [List.filter_map]
  rfl

lemma validacion_isSome_iff (db : List Actividad) (equipos : List EquipoRec)
    (equipos_ids : List Nat) (tipo : String) (fecha : Fecha)
    (excluir : Option Nat) :
    (validacion_mismo_dia_mismo_tipo db equipos equipos_ids tipo fecha
        excluir).isSome = true ↔
      actividades_en_conflicto db equipos_ids tipo fecha excluir ≠ [] := by
  unfold validacion_mismo_dia_mismo_tipo
  rcases h : actividades_en_conflicto db equipos_ids tipo fecha excluir with
    _ | ⟨a, l⟩ <;> simp

lemma validacion_eq_some_nombres {db : List Actividad}
    {equipos : List EquipoRec} {equipos_ids : List Nat} {tipo : String}
    {fecha : Fecha} {excluir : Option Nat} {m : MensajeConflicto}
    (h : validacion_mismo_dia_mismo_tipo db equipos equipos_ids tipo fecha
      excluir = some m) :
    m.equipos_en_conflicto = nombres_equipos_en_conflicto equipos
      (actividades_en_conflicto db equipos_ids tipo fecha excluir)
      equipos_ids := by
  unfold validacion_mismo_dia_mismo_tipo at h
  rcases hL : actividades_en_conflicto db equipos_ids tipo fecha excluir with
    _ | ⟨a, l⟩
  · rw [hL] at h
    simp at h
  · rw [hL] at h
    rw [if_neg (by simp)] at h
    rw [← Option.some_inj.mp h]

/-- Claim C3: the same-day-same-kind gate shared by the create and edit
flows rejects exactly when some other stored activity (the edited one
excluded) shares a team with the candidate, has the same kind, and the
identical start date; the time-of-day fields of the stored activities
play no role in the decision; and on rejection the message data names
exactly the candidate teams participating in a conflicting activity. -/
theorem claim_C3_regla_mismo_dia_mismo_tipo (db : List Actividad)
    (equipos : List EquipoRec) (equipos_ids : List Nat) (tipo : String)
    (fecha : Fecha) (excluir : Option Nat) :
    ((validacion_mismo_dia_mismo_tipo db equipos equipos_ids tipo fecha
        excluir).isSome = true ↔
      ∃ a ∈ db, (∀ pk, excluir = some pk → a.pk ≠ pk) ∧
        (∃ t ∈ a.equipos, t ∈ equipos_ids) ∧ a.tipo = tipo ∧
        a.fecha_inicio = fecha) ∧
    (∀ f g : Actividad → Option Hora,
      (validacion_mismo_dia_mismo_tipo
          (db.map (fun a => { a with hora_inicio := f a, hora_fin := g a }))
          equipos equipos_ids tipo fecha excluir).isSome =
        (validacion_mismo_dia_mismo_tipo db equipos equipos_ids tipo fecha
          excluir).isSome) ∧
    (∀ m, validacion_mismo_dia_mismo_tipo db equipos equipos_ids tipo fecha
        excluir = some m →
      ∀ n : String, n ∈ m.equipos_en_conflicto ↔
        ∃ e ∈ equipos, e.nombre = n ∧ e.id ∈ equipos_ids ∧
          ∃ a ∈ actividades_en_conflicto db equipos_ids tipo fecha excluir,
            e.id ∈ a.equipos) := by
  refine ⟨?_, ?_, ?_⟩
  · rw [validacion_isSome_iff]
    constructor
    · intro hne
      obtain ⟨a, ha⟩ := List.exists_mem_of_ne_nil _ hne
      obtain ⟨hadb, hsh, ht, hf, hexc⟩ := mem_actividades_en_conflicto.mp ha
      exact ⟨a, hadb, hexc, hsh, ht, hf⟩
    · rintro ⟨a, ha, hexc, hsh, ht, hf⟩ hnil
      have hmem : a ∈ actividades_en_conflicto db equipos_ids tipo fecha
          excluir := mem_actividades_en_conflicto.mpr ⟨ha, hsh, ht, hf, hexc⟩
      rw [hnil] at hmem
      cases hmem
  · intro f g
    by_cases hne : actividades_en_conflicto db equipos_ids tipo fecha
        excluir = []
    · have h1 : (validacion_mismo_dia_mismo_tipo db equipos equipos_ids tipo
          fecha excluir).isSome = false := by
        rw [Bool.eq_false_iff, Ne, validacion_isSome_iff]
        simp [hne]
      have h2 : (validacion_mismo_dia_mismo_tipo
          (db.map (fun a => { a with hora_inicio := f a, hora_fin := g a }))
          equipos equipos_ids tipo fecha excluir).isSome = false := by
        rw [Bool.eq_false_iff, Ne, validacion_isSome_iff,
          actividades_en_conflicto_ignora_horas, hne]
        simp
      rw [h1, h2]
    · have h1 : (validacion_mismo_dia_mismo_tipo db equipos equipos_ids tipo
          fecha excluir).isSome = true := (validacion_isSome_iff _ _ _ _ _ _).mpr hne
      have h2 : (validacion_mismo_dia_mismo_tipo
          (db.map (fun a => { a with hora_inicio := f a, hora_fin := g a }))
          equipos equipos_ids tipo fecha excluir).isSome = true := by
        rw [validacion_isSome_iff, actividades_en_conflicto_ignora_horas]
        simpa [List.map_eq_nil_iff] using hne
      rw [h1, h2]
  · intro m hm n
    rw [validacion_eq_some_nombres hm]
    unfold nombres_equipos_en_conflicto
    simp only [List.mem_map, List.mem_filter, Bool.and_eq_true,
      List.any_eq_true]
    constructor
    · rintro ⟨e, ⟨he, ⟨a, ha, hmem⟩, hid⟩, hn⟩
      exact ⟨e, he, hn, by simpa using hid, a, ha, by simpa using hmem⟩
    · rintro ⟨e, he, hn, hid, a, ha, hmem⟩
      exact ⟨e, ⟨he, ⟨a, ha, by simpa using hmem⟩, by simpa using hid⟩, hn⟩

/-- Witness for C3 at the spec scenario: team 1 ("T1") has a PARTIDO on
2025-05-01 stored with no times; a candidate PARTIDO for team 1 on the
same date is rejected and the message data names "T1". -/
theorem claim_C3_witness :
    (validacion_mismo_dia_mismo_tipo
        [{ pk := 1, tipo := "PARTIDO",
           fecha_inicio := { year := 2025, month := 5, day := 1 },
           fecha_fin := { year := 2025, month := 5, day := 1 },
           hora_inicio := none, hora_fin := none, equipos := [1],
           entrenador_responsable := none }]
        [{ id := 1, nombre := "T1", categoria_slug := "sub-14",
           entrenador_id := 9 }]
        [1] "PARTIDO" { year := 2025, month := 5, day := 1 }
        none).isSome = true ∧
    (∃ m, validacion_mismo_dia_mismo_tipo
        [{ pk := 1, tipo := "PARTIDO",
           fecha_inicio := { year := 2025, month := 5, day := 1 },
           fecha_fin := { year := 2025, month := 5, day := 1 },
           hora_inicio := none, hora_fin := none, equipos := [1],
           entrenador_responsable := none }]
        [{ id := 1, nombre := "T1", categoria_slug := "sub-14",
           entrenador_id := 9 }]
        [1] "PARTIDO" { year := 2025, month := 5, day := 1 }
        none = some m ∧ "T1" ∈ m.equipos_en_conflicto) := by
  have h := claim_C3_regla_mismo_dia_mismo_tipo
    [{ pk := 1, tipo := "PARTIDO",
       fecha_inicio := { year := 2025, month := 5, day := 1 },
       fecha_fin := { year := 2025, month := 5, day := 1 },
       hora_inicio := none, hora_fin := none, equipos := [1],
       entrenador_responsable := none }]
    [{ id := 1, nombre := "T1", categoria_slug := "sub-14",
       entrenador_id := 9 }]
    [1] "PARTIDO" { year := 2025, month := 5, day := 1 } none
  have hsome : (validacion_mismo_dia_mismo_tipo
      [{ pk := 1, tipo := "PARTIDO",
         fecha_inicio := { year := 2025, month := 5, day := 1 },
         fecha_fin := { year := 2025, month := 5, day := 1 },
         hora_inicio := none, hora_fin := none, equipos := [1],
         entrenador_responsable := none }]
      [{ id := 1, nombre := "T1", categoria_slug := "sub-14",
         entrenador_id := 9 }]
      [1] "PARTIDO" { year := 2025, month := 5, day := 1 }
      none).isSome = true := by
    refine h.1.mpr ?_
    exact ⟨_, List.mem_singleton.mpr rfl, by simp, ⟨1, by decide, by decide⟩,
      rfl, rfl⟩
  refine ⟨hsome, ?_⟩
  obtain ⟨m, hm⟩ := Option.isSome_iff_exists.mp hsome
  refine ⟨m, hm, ?_⟩
  refine (h.2.2 m hm "T1").mpr ?_
  exact ⟨_, List.mem_singleton.mpr rfl, rfl, by decide, _,
    mem_actividades_en_conflicto.mpr ⟨List.mem_singleton.mpr rfl,
      ⟨1, by decide, by decide⟩, rfl, rfl, by simp⟩, by decide⟩

lemma isSome_guard {γ : Type} (l : List γ) :
    (if l.isEmpty then (none : Option (List γ)) else some l).isSome = true ↔
      l ≠ [] := by
  rcases l with _ | ⟨x, xs⟩ <;> simp

lemma conflicto_de_actividad_isSome_iff (self a : Actividad) (hi hf : Hora)
    (ids : List Nat) :
    (conflicto_de_actividad self hi hf ids a).isSome = true ↔
      (Fecha.le self.fecha_inicio a.fecha_fin = true ∧
       Fecha.le a.fecha_inicio self.fecha_fin = true ∧
       self.fecha_inicio = a.fecha_inicio ∧
       horaOptLt a.hora_inicio hf = true ∧
       horaOptGt a.hora_fin hi = true) := by
  unfold conflicto_de_actividad horaOptLt horaOptGt
  rcases ha1 : a.hora_inicio with _ | ahi <;>
    rcases ha2 : a.hora_fin with _ | ahf
  · simp
  · simp
  · simp
  · split_ifs with hd he <;> simp_all [Bool.and_eq_true]
    aesop

lemma solapamiento_isSome_iff (db : List Actividad) (self : Actividad)
    (ids : List Nat) (hi hf : Hora)
    (h1 : self.hora_inicio = some hi) (h2 : self.hora_fin = some hf) :
    (verificar_solapamiento_equipos db self ids).isSome = true ↔
      ∃ a ∈ db, (∃ t ∈ a.equipos, t ∈ ids) ∧
        Fecha.le a.fecha_inicio self.fecha_fin = true ∧
        Fecha.le self.fecha_inicio a.fecha_fin = true ∧
        a.pk ≠ self.pk ∧ self.fecha_inicio = a.fecha_inicio ∧
        horaOptLt a.hora_inicio hf = true ∧
        horaOptGt a.hora_fin hi = true := by
  unfold verificar_solapamiento_equipos
  rw [h1, h2]
  rw [isSome_guard]
  rw [Ne, List.filterMap_eq_nil_iff]
  push_neg
  constructor
  · rintro ⟨a, ha, hg⟩
    rw [List.mem_filter] at ha
    obtain ⟨hadb, hp⟩ := ha
    simp only [Bool.and_eq_true, List.any_eq_true, bne_iff_ne] at hp
    obtain ⟨⟨⟨⟨t, ht, hin⟩, hd1⟩, hd2⟩, hpk⟩ := hp
    have hs : (conflicto_de_actividad self hi hf ids a).isSome = true :=
      Option.isSome_iff_ne_none.mpr hg
    obtain ⟨he1, he2, heq, hol, hog⟩ :=
      (conflicto_de_actividad_isSome_iff self a hi hf ids).mp hs
    exact ⟨a, hadb, ⟨t, ht, by simpa using hin⟩, hd1, hd2, hpk, heq, hol, hog⟩
  · rintro ⟨a, hadb, ⟨t, ht, hin⟩, hd1, hd2, hpk, heq, hol, hog⟩
    refine ⟨a, ?_, ?_⟩
    · rw [List.mem_filter]
      refine ⟨hadb, ?_⟩
      simp only [Bool.and_eq_true, List.any_eq_true, bne_iff_ne]
      exact ⟨⟨⟨⟨t, ht, by simpa using hin⟩, hd1⟩, hd2⟩, hpk⟩
    · exact Option.isSome_iff_ne_none.mp
        ((conflicto_de_actividad_isSome_iff self a hi hf ids).mpr
          ⟨hd2, hd1, heq, hol, hog⟩)

/-- Claim C4: for a pair of timed activities sharing the start date and
at least one team, with valid date ranges and distinct primary keys, the
overlap detector reports a team conflict exactly when the candidate
starts before the existing activity ends and ends after it starts; in
particular touching boundaries (candidate start = existing end) never
conflict. -/
theorem claim_C4_solapamiento_estricto (A B : Actividad)
    (hi hf bhi bhf : Hora)
    (hA1 : A.hora_inicio = some hi) (hA2 : A.hora_fin = some hf)
    (hB1 : B.hora_inicio = some bhi) (hB2 : B.hora_fin = some bhf)
    (hdate : A.fecha_inicio = B.fecha_inicio)
    (hwfA : Fecha.le A.fecha_inicio A.fecha_fin = true)
    (hwfB : Fecha.le B.fecha_inicio B.fecha_fin = true)
    (hshare : ∃ t ∈ B.equipos, t ∈ A.equipos)
    (hpk : B.pk ≠ A.pk) :
    ((verificar_solapamiento_equipos [B] A A.equipos).isSome = true ↔
      (Hora.lt hi bhf = true ∧ Hora.lt bhi hf = true)) ∧
    (hi = bhf → verificar_solapamiento_equipos [B] A A.equipos = none) := by
  have hiff := solapamiento_isSome_iff [B] A A.equipos hi hf hA1 hA2
  have hd1 : Fecha.le B.fecha_inicio A.fecha_fin = true := by
    rw [← hdate]
    exact hwfA
  have hd2 : Fecha.le A.fecha_inicio B.fecha_fin = true := by
    rw [hdate]
    exact hwfB
  have hmain : (verificar_solapamiento_equipos [B] A A.equipos).isSome = true ↔
      (Hora.lt hi bhf = true ∧ Hora.lt bhi hf = true) := by
    rw [hiff]
    constructor
    · rintro ⟨a, ha, -, -, -, -, -, hol, hog⟩
      rw [List.mem_singleton] at ha
      subst ha
      rw [hB1] at hol
      rw [hB2] at hog
      exact ⟨hog, hol⟩
    · rintro ⟨ho1, ho2⟩
      refine ⟨B, List.mem_singleton.mpr rfl, hshare, hd1, hd2, hpk, hdate,
        ?_, ?_⟩
      · rw [hB1]; exact ho2
      · rw [hB2]; exact ho1
  refine ⟨hmain, ?_⟩
  intro htouch
  have hlt : Hora.lt hi bhf = false := by
    subst htouch
    unfold Hora.lt
    simp
  have : ¬ (verificar_solapamiento_equipos [B] A A.equipos).isSome = true := by
    rw [hmain]
    rintro ⟨h1, -⟩
    rw [hlt] at h1
    cases h1
  exact Option.not_isSome_iff_eq_none.mp this

/-- Witness for C4: activities 1 and 2 share team 5 on 2025-05-01;
with existing 10:00–11:00 a candidate 10:30–11:30 conflicts, and a
candidate starting exactly at 11:00 does not. -/
theorem claim_C4_witness :
    (verificar_solapamiento_equipos
      [{ pk := 2, tipo := "ENTRENAMIENTO",
         fecha_inicio := { year := 2025, month := 5, day := 1 },
         fecha_fin := { year := 2025, month := 5, day := 1 },
         hora_inicio := some { hour := 10, minute := 0 },
         hora_fin := some { hour := 11, minute := 0 },
         equipos := [5], entrenador_responsable := none }]
      { pk := 1, tipo := "ENTRENAMIENTO",
        fecha_inicio := { year := 2025, month := 5, day := 1 },
        fecha_fin := { year := 2025, month := 5, day := 1 },
        hora_inicio := some { hour := 10, minute := 30 },
        hora_fin := some { hour := 11, minute := 30 },
        equipos := [5], entrenador_responsable := none }
      [5]).isSome = true ∧
    verificar_solapamiento_equipos
      [{ pk := 2, tipo := "ENTRENAMIENTO",
         fecha_inicio := { year := 2025, month := 5, day := 1 },
         fecha_fin := { year := 2025, month := 5, day := 1 },
         hora_inicio := some { hour := 10, minute := 0 },
         hora_fin := some { hour := 11, minute := 0 },
         equipos := [5], entrenador_responsable := none }]
      { pk := 1, tipo := "ENTRENAMIENTO",
        fecha_inicio := { year := 2025, month := 5, day := 1 },
        fecha_fin := { year := 2025, month := 5, day := 1 },
        hora_inicio := some { hour := 11, minute := 0 },
        hora_fin := some { hour := 12, minute := 0 },
        equipos := [5], entrenador_responsable := none }
      [5] = none := by
  constructor
  · exact (claim_C4_solapamiento_estricto
      { pk := 1, tipo := "ENTRENAMIENTO",
        fecha_inicio := { year := 2025, month := 5, day := 1 },
        fecha_fin := { year := 2025, month := 5, day := 1 },
        hora_inicio := some { hour := 10, minute := 30 },
        hora_fin := some { hour := 11, minute := 30 },
        equipos := [5], entrenador_responsable := none }
      { pk := 2, tipo := "ENTRENAMIENTO",
        fecha_inicio := { year := 2025, month := 5, day := 1 },
        fecha_fin := { year := 2025, month := 5, day := 1 },
        hora_inicio := some { hour := 10, minute := 0 },
        hora_fin := some { hour := 11, minute := 0 },
        equipos := [5], entrenador_responsable := none }
      { hour := 10, minute := 30 } { hour := 11, minute := 30 }
      { hour := 10, minute := 0 } { hour := 11, minute := 0 }
      rfl rfl rfl rfl rfl (by decide) (by decide)
      ⟨5, by decide, by decide⟩ (by decide)).1.mpr ⟨by decide, by decide⟩
  · exact (claim_C4_solapamiento_estricto
      { pk := 1, tipo := "ENTRENAMIENTO",
        fecha_inicio := { year := 2025, month := 5, day := 1 },
        fecha_fin := { year := 2025, month := 5, day := 1 },
        hora_inicio := some { hour := 11, minute := 0 },
        hora_fin := some { hour := 12, minute := 0 },
        equipos := [5], entrenador_responsable := none }
      { pk := 2, tipo := "ENTRENAMIENTO",
        fecha_inicio := { year := 2025, month := 5, day := 1 },
        fecha_fin := { year := 2025, month := 5, day := 1 },
        hora_inicio := some { hour := 10, minute := 0 },
        hora_fin := some { hour := 11, minute := 0 },
        equipos := [5], entrenador_responsable := none }
      { hour := 11, minute := 0 } { hour := 12, minute := 0 }
      { hour := 10, minute := 0 } { hour := 11, minute := 0 }
      rfl rfl rfl rfl rfl (by decide) (by decide)
      ⟨5, by decide, by decide⟩ (by decide)).2 rfl

/-- Claim C6: the time-overlap team-conflict relation is symmetric —
if candidate A run against the single existing activity B (with A's
teams as the selected ids) reports a conflict, then candidate B run
against A (with B's teams) reports one too. -/
theorem claim_C6_simetria (A B : Actividad)
    (h : (verificar_solapamiento_equipos [B] A A.equipos).isSome = true) :
    (verificar_solapamiento_equipos [A] B B.equipos).isSome = true := by
  rcases hA1 : A.hora_inicio with _ | hi
  · unfold verificar_solapamiento_equipos at h
    rw [hA1] at h
    cases hA2 : A.hora_fin <;> rw [hA2] at h <;> cases h
  rcases hA2 : A.hora_fin with _ | hf
  · unfold verificar_solapamiento_equipos at h
    rw [hA1, hA2] at h
    cases h
  obtain ⟨a, ha, ⟨t, ht, htA⟩, hd1, hd2, hpk, heq, hol, hog⟩ :=
    (solapamiento_isSome_iff [B] A A.equipos hi hf hA1 hA2).mp h
  rw [List.mem_singleton] at ha
  rw [ha] at ht hd1 hd2 hpk heq hol hog
  rcases hB1 : B.hora_inicio with _ | bhi
  · rw [hB1] at hol
    cases hol
  rcases hB2 : B.hora_fin with _ | bhf
  · rw [hB2] at hog
    cases hog
  rw [hB1] at hol
  rw [hB2] at hog
  refine (solapamiento_isSome_iff [A] B B.equipos bhi bhf hB1 hB2).mpr
    ⟨A, List.mem_singleton.mpr rfl, ⟨t, htA, ht⟩, hd2, hd1, hpk.symm,
      heq.symm, ?_, ?_⟩
  · rw [hA1]
    exact hog
  · rw [hA2]
    exact hol

/-- Witness for C6 at the C4 scenario pair: the conflict also fires with
the roles of candidate and existing swapped. -/
theorem claim_C6_witness :
    (verificar_solapamiento_equipos
      [{ pk := 1, tipo := "ENTRENAMIENTO",
         fecha_inicio := { year := 2025, month := 5, day := 1 },
         fecha_fin := { year := 2025, month := 5, day := 1 },
         hora_inicio := some { hour := 10, minute := 30 },
         hora_fin := some { hour := 11, minute := 30 },
         equipos := [5], entrenador_responsable := none }]
      { pk := 2, tipo := "ENTRENAMIENTO",
        fecha_inicio := { year := 2025, month := 5, day := 1 },
        fecha_fin := { year := 2025, month := 5, day := 1 },
        hora_inicio := some { hour := 10, minute := 0 },
        hora_fin := some { hour := 11, minute := 0 },
        equipos := [5], entrenador_responsable := none }
      [5]).isSome = true := by
  exact claim_C6_simetria
    { pk := 2, tipo := "ENTRENAMIENTO",
      fecha_inicio := { year := 2025, month := 5, day := 1 },
      fecha_fin := { year := 2025, month := 5, day := 1 },
      hora_inicio := some { hour := 10, minute := 0 },
      hora_fin := some { hour := 11, minute := 0 },
      equipos := [5], entrenador_responsable := none }
    { pk := 1, tipo := "ENTRENAMIENTO",
      fecha_inicio := { year := 2025, month := 5, day := 1 },
      fecha_fin := { year := 2025, month := 5, day := 1 },
      hora_inicio := some { hour := 10, minute := 30 },
      hora_fin := some { hour := 11, minute := 30 },
      equipos := [5], entrenador_responsable := none }
    (by decide)

lemma contains_false_iff {l : List Nat} {c : Nat} :
    l.contains c = false ↔ ¬ c ∈ l := by
  simp

lemma conflicto_de_entrenador_isSome_iff (self a : Actividad) (hi hf : Hora) :
    (conflicto_de_entrenador self hi hf a).isSome = true ↔
      (self.fecha_inicio = a.fecha_inicio ∧
       horaOptLt a.hora_inicio hf = true ∧
       horaOptGt a.hora_fin hi = true) := by
  unfold conflicto_de_entrenador horaOptLt horaOptGt
  rcases ha1 : a.hora_inicio with _ | ahi <;>
    rcases ha2 : a.hora_fin with _ | ahf
  · simp
  · simp
  · simp
  · split_ifs with hd <;> simp_all [Bool.and_eq_true]
    aesop

lemma equipos_entrenador_spec (equipos : List EquipoRec) (eid : Nat)
    (a : Actividad) :
    (a.equipos.any (fun t =>
        (((equipos.filter (fun e => e.entrenador_id == eid)).map
          (fun e => e.id)).contains t)) = true) ↔
      ∃ e ∈ equipos, e.entrenador_id = eid ∧ e.id ∈ a.equipos := by
  simp only [List.any_eq_true, List.elem_iff, List.mem_map, List.mem_filter,
    beq_iff_eq]
  constructor
  · rintro ⟨t, ht, e, ⟨he, heid⟩, hid⟩
    exact ⟨e, he, heid, hid ▸ ht⟩
  · rintro ⟨e, he, heid, hid⟩
    exact ⟨e.id, hid, e, ⟨he, heid⟩, rfl⟩

/-- Claim C5: coach double-booking looks at both activity sets — those
where the coach is the responsible coach and those of teams the coach
directs: for a timed, not-yet-stored candidate, a conflict is reported
exactly when some stored activity in either set has the same start date
and strictly overlapping times; and the availability query returns
exactly the active coaches minus those with such an overlapping
activity on the candidate's date. -/
theorem claim_C5_disponibilidad_entrenador (db : List Actividad)
    (equipos : List EquipoRec) (perfiles : List PerfilRec)
    (self : Actividad) (hi hf : Hora) (eid : Nat)
    (h1 : self.hora_inicio = some hi) (h2 : self.hora_fin = some hf)
    (hwfself : Fecha.le self.fecha_inicio self.fecha_fin = true)
    (hwf : ∀ a ∈ db, Fecha.le a.fecha_inicio a.fecha_fin = true)
    (hfresh : ∀ a ∈ db, a.pk ≠ self.pk) :
    ((verificar_disponibilidad_entrenador db equipos self
        (some eid)).isSome = true ↔
      ∃ a ∈ db,
        (a.entrenador_responsable = some eid ∨
          ∃ e ∈ equipos, e.entrenador_id = eid ∧ e.id ∈ a.equipos) ∧
        self.fecha_inicio = a.fecha_inicio ∧
        horaOptLt a.hora_inicio hf = true ∧
        horaOptGt a.hora_fin hi = true) ∧
    (∀ c : Nat,
      c ∈ obtener_entrenadores_disponibles db equipos perfiles self ↔
        ((∃ p ∈ perfiles, p.id = c ∧ p.tipo = "ENTRE" ∧ p.activo = true) ∧
         ¬ ∃ a ∈ db,
            a.fecha_inicio = self.fecha_inicio ∧
            horaOptLt a.hora_inicio hf = true ∧
            horaOptGt a.hora_fin hi = true ∧
            (a.entrenador_responsable = some c ∨
              ∃ e ∈ equipos, e.entrenador_id = c ∧ e.id ∈ a.equipos))) := by
  constructor
  · unfold verificar_disponibilidad_entrenador
    rw [h1, h2]
    rw [isSome_guard]
    rw [Ne, List.filterMap_eq_nil_iff]
    push_neg
    constructor
    · rintro ⟨a, ha, hg⟩
      rw [List.mem_filter] at ha
      obtain ⟨hadb, hp⟩ := ha
      simp only [Bool.and_eq_true, Bool.or_eq_true, beq_iff_eq] at hp
      obtain ⟨⟨⟨hdisj, -⟩, -⟩, -⟩ := hp
      have hs : (conflicto_de_entrenador self hi hf a).isSome = true :=
        Option.isSome_iff_ne_none.mpr hg
      obtain ⟨heq, hol, hog⟩ :=
        (conflicto_de_entrenador_isSome_iff self a hi hf).mp hs
      refine ⟨a, hadb, ?_, heq, hol, hog⟩
      rcases hdisj with hresp | hteams
      · exact Or.inl hresp
      · exact Or.inr ((equipos_entrenador_spec equipos eid a).mp hteams)
    · rintro ⟨a, hadb, hdisj, heq, hol, hog⟩
      refine ⟨a, ?_, ?_⟩
      · rw [List.mem_filter]
        refine ⟨hadb, ?_⟩
        simp only [Bool.and_eq_true, Bool.or_eq_true, beq_iff_eq,
          bne_iff_ne]
        refine ⟨⟨⟨?_, ?_⟩, ?_⟩, hfresh a hadb⟩
        · rcases hdisj with hresp | hteams
          · exact Or.inl hresp
          · exact Or.inr ((equipos_entrenador_spec equipos eid a).mpr hteams)
        · rw [← heq]
          exact hwfself
        · rw [heq]
          exact hwf a hadb
      · exact Option.isSome_iff_ne_none.mp
          ((conflicto_de_entrenador_isSome_iff self a hi hf).mpr
            ⟨heq, hol, hog⟩)
  · intro c
    unfold obtener_entrenadores_disponibles
    rw [h1, h2]
    rw [List.mem_filter]
    simp only [List.mem_map, List.mem_filter, Bool.and_eq_true, beq_iff_eq,
      Bool.not_eq_true', contains_false_iff, List.elem_iff, List.mem_append,
      List.mem_filterMap, bne_iff_ne, List.any_eq_true, Bool.not_eq_true]
    constructor
    · rintro ⟨⟨p, ⟨hp, htipo, hact⟩, hid⟩, hocc⟩
      refine ⟨⟨p, hp, hid, htipo, hact⟩, ?_⟩
      rintro ⟨a, hadb, heqd, hol, hog, hdisj⟩
      apply hocc
      rcases hdisj with hresp | ⟨e, he, heid, hmem⟩
      · exact Or.inl ⟨a, ⟨hadb, ⟨⟨⟨heqd, hol⟩, hog⟩,
          Option.isSome_iff_exists.mpr ⟨c, hresp⟩⟩, hfresh a hadb⟩, hresp⟩
      · refine Or.inr ⟨e, ⟨he, ?_, ?_⟩, heid⟩
        · exact ⟨a, hadb, ⟨⟨hmem, heqd⟩, hol⟩, hog⟩
        · rw [List.any_eq_false]
          intro x hx
          simp only [Bool.and_eq_true, beq_iff_eq, not_and]
          intro _
          exact hfresh x hx
    · rintro ⟨⟨p, hp, hid, htipo, hact⟩, hbusy⟩
      refine ⟨⟨p, ⟨hp, htipo, hact⟩, hid⟩, ?_⟩
      rintro (⟨a, ⟨hadb, ⟨⟨⟨heqd, hol⟩, hog⟩, -⟩, -⟩, hresp⟩ |
        ⟨e, ⟨he, ⟨a, hadb, ⟨⟨hmem, heqd⟩, hol⟩, hog⟩, -⟩, heid⟩)
      · exact hbusy ⟨a, hadb, heqd, hol, hog, Or.inl hresp⟩
      · exact hbusy ⟨a, hadb, heqd, hol, hog, Or.inr ⟨e, he, heid, hmem⟩⟩

/-- Witness for C5 at the spec scenario: coach 9 directs team 2, which
has activity 1 at 10:00–11:00 on 2025-05-01; a candidate activity
(pk 99, 10:30–11:30, same date, coach 9 responsible) gets a conflict
even though coach 9 is not responsible for activity 1, coach 9 is not
among the available coaches, and the idle coach 8 is. -/
theorem claim_C5_witness :
    (verificar_disponibilidad_entrenador
      [{ pk := 1, tipo := "ENTRENAMIENTO",
         fecha_inicio := { year := 2025, month := 5, day := 1 },
         fecha_fin := { year := 2025, month := 5, day := 1 },
         hora_inicio := some { hour := 10, minute := 0 },
         hora_fin := some { hour := 11, minute := 0 },
         equipos := [2], entrenador_responsable := none }]
      [{ id := 2, nombre := "T2", categoria_slug := "sub-16",
         entrenador_id := 9 }]
      { pk := 99, tipo := "PARTIDO",
        fecha_inicio := { year := 2025, month := 5, day := 1 },
        fecha_fin := { year := 2025, month := 5, day := 1 },
        hora_inicio := some { hour := 10, minute := 30 },
        hora_fin := some { hour := 11, minute := 30 },
        equipos := [2], entrenador_responsable := some 9 }
      (some 9)).isSome = true ∧
    ¬ 9 ∈ obtener_entrenadores_disponibles
      [{ pk := 1, tipo := "ENTRENAMIENTO",
         fecha_inicio := { year := 2025, month := 5, day := 1 },
         fecha_fin := { year := 2025, month := 5, day := 1 },
         hora_inicio := some { hour := 10, minute := 0 },
         hora_fin := some { hour := 11, minute := 0 },
         equipos := [2], entrenador_responsable := none }]
      [{ id := 2, nombre := "T2", categoria_slug := "sub-16",
         entrenador_id := 9 }]
      [{ id := 9, tipo := "ENTRE", activo := true },
       { id := 8, tipo := "ENTRE", activo := true }]
      { pk := 99, tipo := "PARTIDO",
        fecha_inicio := { year := 2025, month := 5, day := 1 },
        fecha_fin := { year := 2025, month := 5, day := 1 },
        hora_inicio := some { hour := 10, minute := 30 },
        hora_fin := some { hour := 11, minute := 30 },
        equipos := [2], entrenador_responsable := some 9 } ∧
    8 ∈ obtener_entrenadores_disponibles
      [{ pk := 1, tipo := "ENTRENAMIENTO",
         fecha_inicio := { year := 2025, month := 5, day := 1 },
         fecha_fin := { year := 2025, month := 5, day := 1 },
         hora_inicio := some { hour := 10, minute := 0 },
         hora_fin := some { hour := 11, minute := 0 },
         equipos := [2], entrenador_responsable := none }]
      [{ id := 2, nombre := "T2", categoria_slug := "sub-16",
         entrenador_id := 9 }]
      [{ id := 9, tipo := "ENTRE", activo := true },
       { id := 8, tipo := "ENTRE", activo := true }]
      { pk := 99, tipo := "PARTIDO",
        fecha_inicio := { year := 2025, month := 5, day := 1 },
        fecha_fin := { year := 2025, month := 5, day := 1 },
        hora_inicio := some { hour := 10, minute := 30 },
        hora_fin := some { hour := 11, minute := 30 },
        equipos := [2], entrenador_responsable := some 9 } := by
  have h := claim_C5_disponibilidad_entrenador
    [{ pk := 1, tipo := "ENTRENAMIENTO",
       fecha_inicio := { year := 2025, month := 5, day := 1 },
       fecha_fin := { year := 2025, month := 5, day := 1 },
       hora_inicio := some { hour := 10, minute := 0 },
       hora_fin := some { hour := 11, minute := 0 },
       equipos := [2], entrenador_responsable := none }]
    [{ id := 2, nombre := "T2", categoria_slug := "sub-16",
       entrenador_id := 9 }]
    [{ id := 9, tipo := "ENTRE", activo := true },
     { id := 8, tipo := "ENTRE", activo := true }]
    { pk := 99, tipo := "PARTIDO",
      fecha_inicio := { year := 2025, month := 5, day := 1 },
      fecha_fin := { year := 2025, month := 5, day := 1 },
      hora_inicio := some { hour := 10, minute := 30 },
      hora_fin := some { hour := 11, minute := 30 },
      equipos := [2], entrenador_responsable := some 9 }
    { hour := 10, minute := 30 } { hour := 11, minute := 30 } 9
    rfl rfl (by decide) (by decide) (by decide)
  refine ⟨?_, ?_, ?_⟩
  · refine h.1.mpr ⟨_, List.mem_singleton.mpr rfl, ?_, rfl, by decide,
      by decide⟩
    exact Or.inr ⟨_, List.mem_singleton.mpr rfl, rfl, by decide⟩
  · intro hmem
    obtain ⟨-, hnb⟩ := (h.2 9).mp hmem
    exact hnb ⟨_, List.mem_singleton.mpr rfl, rfl, by decide, by decide,
      Or.inr ⟨_, List.mem_singleton.mpr rfl, rfl, by decide⟩⟩
  · refine (h.2 8).mpr ⟨⟨{ id := 8, tipo := "ENTRE", activo := true },
      by simp, rfl, rfl, rfl⟩, ?_⟩
    rintro ⟨a, ha, -, -, -, hdisj⟩
    rw [List.mem_singleton] at ha
    subst ha
    rcases hdisj with hresp | ⟨e, he, heid, -⟩
    · simp at hresp
    · rw [List.mem_singleton] at he
      subst he
      simp at heid

lemma fecha_lt_iff (a b : Fecha) : Fecha.lt a b = true ↔
    (a.year < b.year ∨ (a.year = b.year ∧
      (a.month < b.month ∨ (a.month = b.month ∧ a.day < b.day)))) := by
  unfold Fecha.lt
  simp [Bool.or_eq_true, Bool.and_eq_true, decide_eq_true_eq]

lemma mdLt_iff (m1 d1 m2 d2 : Nat) : mdLt m1 d1 m2 d2 = true ↔
    (m1 < m2 ∨ (m1 = m2 ∧ d1 < d2)) := by
  unfold mdLt
  simp [Bool.or_eq_true, Bool.and_eq_true, decide_eq_true_eq]

lemma bracketDeSlug_pos {s : String} {m : Int} {nom : String}
    (h : bracketDeSlug s = some (m, nom)) : 0 < m := by
  unfold bracketDeSlug at h
  split_ifs at h <;> simp_all <;> omega

/-- Claim C7: every missing-information input short-circuits to "no
error": Policy A skips when the birth date or the team is absent, and
the time-overlap check returns no conflicts when the candidate lacks a
start or end time or when every stored activity on the other side lacks
one — date-only activities never trigger the time-overlap rule. -/
theorem claim_C7_omision_datos_faltantes :
    (∀ (anio : Int) (equipo : Option EquipoA),
      validar_edad_vs_categoria anio none equipo = none) ∧
    (∀ (anio : Int) (fn : Option Fecha),
      validar_edad_vs_categoria anio fn none = none) ∧
    (∀ (db : List Actividad) (self : Actividad) (ids : List Nat),
      self.hora_inicio = none →
      verificar_solapamiento_equipos db self ids = none) ∧
    (∀ (db : List Actividad) (self : Actividad) (ids : List Nat),
      self.hora_fin = none →
      verificar_solapamiento_equipos db self ids = none) ∧
    (∀ (db : List Actividad) (self : Actividad) (ids : List Nat),
      (∀ a ∈ db, a.hora_inicio = none ∨ a.hora_fin = none) →
      verificar_solapamiento_equipos db self ids = none) := by
  refine ⟨?_, ?_, ?_, ?_, ?_⟩
  · intro anio equipo
    rcases equipo <;> rfl
  · intro anio fn
    rcases fn <;> rfl
  · intro db self ids h
    unfold verificar_solapamiento_equipos
    rw [h]
  · intro db self ids h
    unfold verificar_solapamiento_equipos
    rw [h]
    rcases self.hora_inicio <;> rfl
  · intro db self ids hall
    rcases hsi : self.hora_inicio with _ | hi
    · unfold verificar_solapamiento_equipos
      rw [hsi]
    rcases hsf : self.hora_fin with _ | hf
    · unfold verificar_solapamiento_equipos
      rw [hsi, hsf]
    unfold verificar_solapamiento_equipos
    rw [hsi, hsf]
    have hnil : (db.filter (fun a =>
        a.equipos.any (fun t => ids.contains t) &&
        Fecha.le a.fecha_inicio self.fecha_fin &&
        Fecha.le self.fecha_inicio a.fecha_fin &&
        a.pk != self.pk)).filterMap
        (conflicto_de_actividad self hi hf ids) = [] := by
      rw [List.filterMap_eq_nil_iff]
      intro a ha
      have hmem := (List.mem_filter.mp ha).1
      rcases hall a hmem with h0 | h0
      · unfold conflicto_de_actividad
        rw [h0]
      · unfold conflicto_de_actividad
        rw [h0]
        rcases a.hora_inicio <;> rfl
    simp only [hnil, List.isEmpty_nil, if_true]

/-- Witness for C7: a date-only stored activity on the same date with
overlapping-looking context never produces a time conflict against a
timed candidate. -/
theorem claim_C7_witness :
    verificar_solapamiento_equipos
      [{ pk := 2, tipo := "ENTRENAMIENTO",
         fecha_inicio := { year := 2025, month := 5, day := 1 },
         fecha_fin := { year := 2025, month := 5, day := 1 },
         hora_inicio := none, hora_fin := none, equipos := [5],
         entrenador_responsable := none }]
      { pk := 1, tipo := "ENTRENAMIENTO",
        fecha_inicio := { year := 2025, month := 5, day := 1 },
        fecha_fin := { year := 2025, month := 5, day := 1 },
        hora_inicio := some { hour := 10, minute := 0 },
        hora_fin := some { hour := 11, minute := 0 },
        equipos := [5], entrenador_responsable := none }
      [5] = none := by
  exact claim_C7_omision_datos_faltantes.2.2.2.2
    [{ pk := 2, tipo := "ENTRENAMIENTO",
       fecha_inicio := { year := 2025, month := 5, day := 1 },
       fecha_fin := { year := 2025, month := 5, day := 1 },
       hora_inicio := none, hora_fin := none, equipos := [5],
       entrenador_responsable := none }]
    { pk := 1, tipo := "ENTRENAMIENTO",
      fecha_inicio := { year := 2025, month := 5, day := 1 },
      fecha_fin := { year := 2025, month := 5, day := 1 },
      hora_inicio := some { hour := 10, minute := 0 },
      hora_fin := some { hour := 11, minute := 0 },
      equipos := [5], entrenador_responsable := none }
    [5] (by decide)

/-- Claim C9: an unrecognized category is treated asymmetrically —
Policy B skips whenever the slug contains none of the six sub-age
substrings, while Policy A adds an error on the team field both when the
category code cannot be determined and when the code carries no rule. -/
theorem claim_C9_categoria_no_reconocida :
    (∀ (hoy fn : Fecha) (e : EquipoB),
      strContains (strLower e.categoria.slug) "sub-14" = false →
      strContains (strLower e.categoria.slug) "sub14" = false →
      strContains (strLower e.categoria.slug) "sub-16" = false →
      strContains (strLower e.categoria.slug) "sub16" = false →
      strContains (strLower e.categoria.slug) "sub-18" = false →
      strContains (strLower e.categoria.slug) "sub18" = false →
      validar_edad_categoria hoy (some fn) (some e) = .skip) ∧
    (∀ (anio : Int) (fn : Fecha) (e : EquipoA),
      codigo_categoria_equipo (some e) = none →
      validar_edad_vs_categoria anio (some fn) (some e) =
        some "No se pudo determinar la categoría del equipo.") ∧
    (∀ (anio : Int) (fn : Fecha) (e : EquipoA) (codigo : String),
      codigo_categoria_equipo (some e) = some codigo →
      REGLAS_CATEGORIA codigo = none →
      validar_edad_vs_categoria anio (some fn) (some e) =
        some "La categoría del equipo es inválida o no está configurada.") := by
  refine ⟨?_, ?_, ?_⟩
  · intro hoy fn e h1 h2 h3 h4 h5 h6
    unfold validar_edad_categoria
    have hb : bracketDeSlug (strLower e.categoria.slug) = none := by
      unfold bracketDeSlug
      rw [h1, h2, h3, h4, h5, h6]
      rfl
    simp [hb]
  · intro anio fn e h
    unfold validar_edad_vs_categoria
    simp [h]
  · intro anio fn e codigo h hr
    unfold validar_edad_vs_categoria
    simp [h, hr]

/-- Witness for C9: slug "adulto" is skipped under Policy B; a team with
no category, and a team with category "mixto", each produce the
corresponding Policy A error. -/
theorem claim_C9_witness :
    validar_edad_categoria { year := 2025, month := 6, day := 20 }
      (some { year := 2011, month := 6, day := 15 })
      (some { categoria := { slug := "adulto" } }) = .skip ∧
    validar_edad_vs_categoria 2025
      (some { year := 2011, month := 6, day := 15 })
      (some { categoria := none }) =
      some "No se pudo determinar la categoría del equipo." ∧
    validar_edad_vs_categoria 2025
      (some { year := 2011, month := 6, day := 15 })
      (some { categoria := some { nombre := "mixto" } }) =
      some "La categoría del equipo es inválida o no está configurada." := by
  refine ⟨?_, ?_, ?_⟩
  · exact claim_C9_categoria_no_reconocida.1
      { year := 2025, month := 6, day := 20 }
      { year := 2011, month := 6, day := 15 }
      { categoria := { slug := "adulto" } }
      (by decide) (by decide) (by decide) (by decide) (by decide) (by decide)
  · exact claim_C9_categoria_no_reconocida.2.1 2025
      { year := 2011, month := 6, day := 15 } { categoria := none } rfl
  · exact claim_C9_categoria_no_reconocida.2.2 2025
      { year := 2011, month := 6, day := 15 }
      { categoria := some { nombre := "mixto" } } "mixto" (by decide)
      (by decide)

/-- Claim C10: a birth date in the future is never rejected by either
age computation — both ages come out zero or negative — and under
Policy B every sub-age category accepts it, because only the upper
bound is ever checked. -/
theorem claim_C10_fecha_futura (hoy fn : Fecha)
    (h : Fecha.lt hoy fn = true) :
    calcular_edad hoy fn ≤ 0 ∧
    edad_al_corte fn (fecha_corte hoy.year) ≤ 0 ∧
    (∀ (e : EquipoB) (m : Int) (nom : String),
      bracketDeSlug (strLower e.categoria.slug) = some (m, nom) →
      validar_edad_categoria hoy (some fn) (some e) =
        .acepta (calcular_edad hoy fn)) ∧
    (∀ (e : EquipoB) (msg : String),
      validar_edad_categoria hoy (some fn) (some e) ≠ .rechazo msg) := by
  have hP := (fecha_lt_iff hoy fn).mp h
  have hyear : hoy.year ≤ fn.year := by
    rcases hP with h1 | ⟨h1, -⟩ <;> omega
  have hage : calcular_edad hoy fn ≤ 0 := by
    unfold calcular_edad
    dsimp only
    split_ifs <;> omega
  have hcorte : edad_al_corte fn (fecha_corte hoy.year) ≤ 0 := by
    unfold edad_al_corte fecha_corte
    dsimp only
    split_ifs <;> omega
  have haccept : ∀ (e : EquipoB) (m : Int) (nom : String),
      bracketDeSlug (strLower e.categoria.slug) = some (m, nom) →
      validar_edad_categoria hoy (some fn) (some e) =
        .acepta (calcular_edad hoy fn) := by
    intro e m nom hb
    have hm := bracketDeSlug_pos hb
    unfold validar_edad_categoria
    simp only [hb]
    have : ¬ (calcular_edad hoy fn > m) := by omega
    simp [this]
  refine ⟨hage, hcorte, haccept, ?_⟩
  intro e msg
  rcases hb : bracketDeSlug (strLower e.categoria.slug) with _ | ⟨m, nom⟩
  · unfold validar_edad_categoria
    simp [hb]
  · rw [haccept e m nom hb]
    simp

/-- Witness for C10: born 2030-01-01, evaluated on 2025-06-20, the
Policy B age is not positive and a "sub-14" team accepts. -/
theorem claim_C10_witness :
    Fecha.lt { year := 2025, month := 6, day := 20 }
      { year := 2030, month := 1, day := 1 } = true ∧
    calcular_edad { year := 2025, month := 6, day := 20 }
      { year := 2030, month := 1, day := 1 } ≤ 0 ∧
    validar_edad_categoria { year := 2025, month := 6, day := 20 }
      (some { year := 2030, month := 1, day := 1 })
      (some { categoria := { slug := "sub-14" } }) =
      .acepta (calcular_edad { year := 2025, month := 6, day := 20 }
        { year := 2030, month := 1, day := 1 }) := by
  have h := claim_C10_fecha_futura { year := 2025, month := 6, day := 20 }
    { year := 2030, month := 1, day := 1 } (by decide)
  exact ⟨by decide, h.1,
    h.2.2.1 { categoria := { slug := "sub-14" } } 14 "Sub-14" (by decide)⟩

/-- Claim C8 (failing input): `asistencias_registrar` creates an
attendance record through `update_or_create` without ever running
`Asistencia.clean`: with activity 1 involving only team 10 and player 7
belonging to team 20, the view stores the record, although
`Asistencia.clean` rejects exactly this pairing — so the
membership-at-creation invariant does not hold for this operation. -/
theorem claim_C8_registro_sin_pertenencia :
    asistencias_registrar []
      { pk := 1, tipo := "ENTRENAMIENTO",
        fecha_inicio := { year := 2025, month := 5, day := 1 },
        fecha_fin := { year := 2025, month := 5, day := 1 },
        hora_inicio := none, hora_fin := none, equipos := [10],
        entrenador_responsable := none }
      3 { year := 2025, month := 5, day := 1 } [7] [] =
      [{ jugador := 7, actividad := 1, entrenador := 3, estado := "P",
         fecha_marcaje := { year := 2025, month := 5, day := 1 } }] ∧
    ({ id := 7, equipo_id := some 20 } : JugadorRec).equipo_id = some 20 ∧
    ¬ 20 ∈
      ({ pk := 1, tipo := "ENTRENAMIENTO",
         fecha_inicio := { year := 2025, month := 5, day := 1 },
         fecha_fin := { year := 2025, month := 5, day := 1 },
         hora_inicio := none, hora_fin := none, equipos := [10],
         entrenador_responsable := none } : Actividad).equipos ∧
    Asistencia_clean
      { pk := 1, tipo := "ENTRENAMIENTO",
        fecha_inicio := { year := 2025, month := 5, day := 1 },
        fecha_fin := { year := 2025, month := 5, day := 1 },
        hora_inicio := none, hora_fin := none, equipos := [10],
        entrenador_responsable := none }
      { id := 7, equipo_id := some 20 }
      { year := 2025, month := 5, day := 1 } =
      Except.error
        "El jugador no pertenece a un equipo que participa en esta actividad." := by
  refine ⟨rfl, rfl, by decide, rfl⟩

end SurVoley
